import Mathlib

/-!
Verification of the FLYR-PRO CVRP routing core
(`kimi-cli/templates/lambda-cvrp/app.py`) against its specification.

The development shallow-embeds the Python source: pure functions become Lean
functions, machine floats become real numbers (`ℝ`), Python `int()` truncation
becomes an explicit truncation operator, and the external OR-Tools solver —
which is a third-party library, not part of the repository — is abstracted as
a parameter producing per-agent routes.
-/

/-! ### Data model (spec §3, source docstring of `handler`) -/

/-- A stop/address record: `{id, lat, lon, house_number, street_name}`. -/
structure Stop where
  id : String
  lat : ℝ
  lon : ℝ
  house_number : String
  street_name : String
deriving Inhabited

/-- An optional depot `{lat, lon}`. -/
structure Depot where
  lat : ℝ
  lon : ℝ
deriving Inhabited

/-- A coordinate pair in the location list built by `_get_distance_matrix`. -/
structure Location where
  lat : ℝ
  lon : ℝ
deriving Inhabited

/-! ### Street-side pre-sorter (`_sort_by_street_side`, app.py lines 175-191)

Python's `sorted(addresses, key=sort_key)` is a stable sort by the key tuple
`(street, is_odd, house_num)`, where `is_odd` is
`int(''.join(filter(str.isdigit, str(house_num))) or '0') % 2`.
We embed the key as a lexicographic triple and the sort as `List.mergeSort`
with the comparator induced by the key, which is likewise a stable sort by a
total preorder — the same function `sorted` computes. -/

/-- The integer formed by the digit characters of the house-number string,
`0` when there are none: `int(''.join(filter(str.isdigit, s)) or '0')`. -/
def houseNumber_value (s : String) : ℕ :=
  (s.toList.filter Char.isDigit).foldl (fun n c => 10 * n + (c.toNat - 48)) 0

/-- The sort key of `_sort_by_street_side`:
`(street, is_odd, house_num)` compared lexicographically,
exactly as Python compares the key tuples. -/
def sort_key (addr : Stop) : Lex (String × Lex (ℕ × String)) :=
  toLex (addr.street_name, toLex (houseNumber_value addr.house_number % 2, addr.house_number))

/-- The boolean comparator induced by `sort_key`. -/
def keyLeB (a b : Stop) : Bool := decide (sort_key a ≤ sort_key b)

/-- Model of `_sort_by_street_side`: stable sort of the stops by `sort_key`. -/
def _sort_by_street_side (addresses : List Stop) : List Stop :=
  addresses.mergeSort keyLeB

theorem keyLeB_trans : ∀ a b c : Stop, keyLeB a b → keyLeB b c → keyLeB a c := by
  intro a b c hab hbc
  simp only [keyLeB, decide_eq_true_eq] at *
  exact le_trans hab hbc

theorem keyLeB_total : ∀ a b : Stop, keyLeB a b || keyLeB b a := by
  intro a b
  simp only [keyLeB, Bool.or_eq_true, decide_eq_true_eq]
  exact le_total (sort_key a) (sort_key b)

theorem sorted_sort_by_street_side (l : List Stop) :
    (_sort_by_street_side l).Pairwise (fun a b => keyLeB a b) :=
  List.sorted_mergeSort keyLeB_trans keyLeB_total l

/-- Stability of the pre-sorter: for every key value, the stops carrying that
key appear in the output in the same order as in the input. -/
theorem sort_by_street_side_stable (l : List Stop) (k : Lex (String × Lex (ℕ × String))) :
    (_sort_by_street_side l).filter (fun a => decide (sort_key a = k)) =
      l.filter (fun a => decide (sort_key a = k)) := by
  have hsub : List.Sublist (l.filter (fun a => decide (sort_key a = k))) l :=
    List.filter_sublist l
  have hpw : (l.filter (fun a => decide (sort_key a = k))).Pairwise (fun a b => keyLeB a b) := by
    apply List.pairwise_of_forall_mem_list
    intro a ha b hb
    have hak := (List.mem_filter.mp ha).2
    have hbk := (List.mem_filter.mp hb).2
    simp only [decide_eq_true_eq] at hak hbk
    simp only [keyLeB, decide_eq_true_eq, hak, hbk, le_refl]
  have h1 : List.Sublist (l.filter (fun a => decide (sort_key a = k)))
      (_sort_by_street_side l) :=
    List.sublist_mergeSort keyLeB_trans keyLeB_total hpw hsub
  have h2 : List.Sublist (l.filter (fun a => decide (sort_key a = k)))
      ((_sort_by_street_side l).filter (fun a => decide (sort_key a = k))) := by
    have := h1.filter (fun a => decide (sort_key a = k))
    simpa [List.filter_filter] using this
  have hperm : ((_sort_by_street_side l).filter (fun a => decide (sort_key a = k))).length =
      (l.filter (fun a => decide (sort_key a = k))).length :=
    ((List.mergeSort_perm l keyLeB).filter (fun a => decide (sort_key a = k))).length_eq
  exact (h2.eq_of_length hperm.symm).symm

/-- C4: the pre-sorter returns its input sorted by
(street name, house-number parity, raw house-number string), where parity is
the concatenated-digit value of the house number modulo 2 (0 when no digit is
present); it is a deterministic stable sort: the output is key-sorted, is a
permutation of the input, and stops with equal keys keep their input order. -/
theorem C4_sort_by_street_side_sorted_stable (l : List Stop) :
    ((_sort_by_street_side l).Pairwise (fun a b => sort_key a ≤ sort_key b)) ∧
    (_sort_by_street_side l).Perm l ∧
    (∀ k : Lex (String × Lex (ℕ × String)),
      (_sort_by_street_side l).filter (fun a => decide (sort_key a = k)) =
        l.filter (fun a => decide (sort_key a = k))) := by
  refine ⟨?_, List.mergeSort_perm l keyLeB, fun k => sort_by_street_side_stable l k⟩
  have := sorted_sort_by_street_side l
  exact this.imp (by intro a b h; simpa [keyLeB, decide_eq_true_eq] using h)

/-- C5: the pre-sorter is idempotent, and its output is a permutation of its
input (same length, no stop dropped or duplicated). -/
theorem C5_sort_by_street_side_idempotent_perm (l : List Stop) :
    _sort_by_street_side (_sort_by_street_side l) = _sort_by_street_side l ∧
    (_sort_by_street_side l).Perm l ∧
    (_sort_by_street_side l).length = l.length := by
  refine ⟨?_, List.mergeSort_perm l keyLeB, List.length_mergeSort l⟩
  exact List.mergeSort_of_sorted (sorted_sort_by_street_side l)

/-! ### Haversine distance (`_haversine_m`, app.py lines 194-203)

The Python source computes with IEEE floats; the embedding uses real numbers.
`math.atan2` is modelled by the standard real two-argument arctangent. -/

/-- Model of `math.radians`: degrees to radians. -/
noncomputable def radians (x : ℝ) : ℝ := x * Real.pi / 180

/-- Model of `math.atan2 y x`: the angle of the point `(x, y)`, in `(-π, π]`. -/
noncomputable def atan2 (y x : ℝ) : ℝ :=
  if 0 < x then Real.arctan (y / x)
  else if x < 0 then
    (if 0 ≤ y then Real.arctan (y / x) + Real.pi else Real.arctan (y / x) - Real.pi)
  else
    (if 0 < y then Real.pi / 2 else if y < 0 then -(Real.pi / 2) else 0)

/-- Model of `_haversine_m`: great-circle distance in meters, Earth radius 6,371,000 m. -/
noncomputable def _haversine_m (lat1 lon1 lat2 lon2 : ℝ) : ℝ :=
  let R : ℝ := 6371000
  let phi1 := radians lat1
  let phi2 := radians lat2
  let dphi := radians (lat2 - lat1)
  let dlam := radians (lon2 - lon1)
  let a := Real.sin (dphi / 2) ^ 2 + Real.cos phi1 * Real.cos phi2 * Real.sin (dlam / 2) ^ 2
  let c := 2 * atan2 (Real.sqrt a) (Real.sqrt (1 - a))
  R * c

theorem atan2_nonneg (y x : ℝ) (hy : 0 ≤ y) : 0 ≤ atan2 y x := by
  unfold atan2
  split_ifs with h1 h2 h3 h4
  · have := Real.arctan_strictMono.monotone (div_nonneg hy h1.le)
    rwa [Real.arctan_zero] at this
  · have := Real.neg_pi_div_two_lt_arctan (y / x)
    have hpi := Real.pi_pos
    linarith
  · have hpi := Real.pi_pos
    linarith
  · linarith
  · exact le_refl 0

/-- The haversine angle term `a` of `_haversine_m` as a closed expression. -/
noncomputable def havA (lat1 lon1 lat2 lon2 : ℝ) : ℝ :=
  Real.sin (radians (lat2 - lat1) / 2) ^ 2 +
    Real.cos (radians lat1) * Real.cos (radians lat2) *
      Real.sin (radians (lon2 - lon1) / 2) ^ 2

theorem _haversine_m_def (lat1 lon1 lat2 lon2 : ℝ) :
    _haversine_m lat1 lon1 lat2 lon2 =
      6371000 * (2 * atan2 (Real.sqrt (havA lat1 lon1 lat2 lon2))
        (Real.sqrt (1 - havA lat1 lon1 lat2 lon2))) := rfl

theorem haversine_nonneg (lat1 lon1 lat2 lon2 : ℝ) :
    0 ≤ _haversine_m lat1 lon1 lat2 lon2 := by
  rw [_haversine_m_def]
  have h := atan2_nonneg (Real.sqrt (havA lat1 lon1 lat2 lon2))
    (Real.sqrt (1 - havA lat1 lon1 lat2 lon2)) (Real.sqrt_nonneg _)
  have h2 : (0 : ℝ) ≤ 2 * atan2 (Real.sqrt (havA lat1 lon1 lat2 lon2))
      (Real.sqrt (1 - havA lat1 lon1 lat2 lon2)) := by linarith
  linarith

theorem havA_symm (lat1 lon1 lat2 lon2 : ℝ) :
    havA lat1 lon1 lat2 lon2 = havA lat2 lon2 lat1 lon1 := by
  unfold havA radians
  have key : ∀ u v : ℝ, Real.sin ((u - v) * Real.pi / 180 / 2) ^ 2 =
      Real.sin ((v - u) * Real.pi / 180 / 2) ^ 2 := by
    intro u v
    have h : (u - v) * Real.pi / 180 / 2 = -((v - u) * Real.pi / 180 / 2) := by ring
    rw [h, Real.sin_neg]
    ring
  rw [key lat2 lat1, key lon2 lon1, mul_comm (Real.cos (lat1 * Real.pi / 180))]

theorem haversine_symm (lat1 lon1 lat2 lon2 : ℝ) :
    _haversine_m lat1 lon1 lat2 lon2 = _haversine_m lat2 lon2 lat1 lon1 := by
  rw [_haversine_m_def, _haversine_m_def, havA_symm]

/-! ### Distance/time matrix builder (`_get_distance_matrix`, app.py lines 206-262)

The Python loop appends `int(walk_time)` / `int(dist)`; `int()` on a float
truncates toward zero, which we model on `ℝ` as floor for non-negative values
and ceiling for negative ones. -/

/-- Python `int()` applied to a real value: truncation toward zero. -/
noncomputable def pyInt (x : ℝ) : ℤ := if 0 ≤ x then ⌊x⌋ else ⌈x⌉

theorem pyInt_of_nonneg {x : ℝ} (h : 0 ≤ x) : pyInt x = ⌊x⌋ := if_pos h

/-- The location list of `_get_distance_matrix` (lines 219-227): the depot
first *when provided*, then one location per address. No synthetic node is
inserted when `depot` is absent. -/
def matrixLocations (addresses : List Stop) (depot : Option Depot) : List Location :=
  (match depot with
   | some d => [⟨d.lat, d.lon⟩]
   | none => []) ++ addresses.map (fun a => (⟨a.lat, a.lon⟩ : Location))

/-- Haversine distance between the locations at indices `i` and `j`. -/
noncomputable def locDist (locations : List Location) (i j : ℕ) : ℝ :=
  _haversine_m (locations.getD i default).lat (locations.getD i default).lon
    (locations.getD j default).lat (locations.getD j default).lon

/-- The time matrix: entry `(i, j)` is `0` on the diagonal and
`int(dist / speed_m_s)` off it (lines 235-251). -/
noncomputable def time_matrix (locations : List Location) (speed_m_s : ℝ) :
    List (List ℤ) :=
  (List.range locations.length).map (fun i =>
    (List.range locations.length).map (fun j =>
      if i = j then 0 else pyInt (locDist locations i j / speed_m_s)))

/-- The distance matrix: entry `(i, j)` is `0` on the diagonal and
`int(dist)` off it (lines 235-251). -/
noncomputable def distance_matrix (locations : List Location) : List (List ℤ) :=
  (List.range locations.length).map (fun i =>
    (List.range locations.length).map (fun j =>
      if i = j then 0 else pyInt (locDist locations i j)))

/-- The dictionary returned by `_get_distance_matrix` (wall-clock timing
omitted: not representable). -/
structure MatrixData where
  time_matrix : List (List ℤ)
  distance_matrix : List (List ℤ)
  depot_index : ℕ

/-- Model of `_get_distance_matrix`: build the location list, convert the walking
speed from km/h to m/s, and fill both matrices. -/
noncomputable def _get_distance_matrix (addresses : List Stop) (depot : Option Depot)
    (walking_speed : ℝ) : MatrixData :=
  let locations := matrixLocations addresses depot
  let speed_m_s := walking_speed * 1000 / 3600
  ⟨time_matrix locations speed_m_s, distance_matrix locations, 0⟩

/-- Matrix entry access, defaulting to `0` out of range (the Python loops
only ever index in range). -/
def mentry (m : List (List ℤ)) (i j : ℕ) : ℤ := (m.getD i []).getD j 0

theorem getD_map_range {α : Type} (f : ℕ → α) (n i : ℕ) (d : α) (h : i < n) :
    ((List.range n).map f).getD i d = f i := by
  simp [List.getD_eq_getElem?_getD, List.getElem?_map, List.getElem?_range h]

theorem getD_map_range_oob {α : Type} (f : ℕ → α) (n i : ℕ) (d : α) (h : ¬ i < n) :
    ((List.range n).map f).getD i d = d := by
  have : ((List.range n).map f).length ≤ i := by simpa using Nat.le_of_not_lt h
  simp [List.getD_eq_getElem?_getD, List.getElem?_eq_none this]

theorem mentry_time_matrix (locations : List Location) (s : ℝ) (i j : ℕ) :
    mentry (time_matrix locations s) i j =
      if i < locations.length ∧ j < locations.length then
        (if i = j then 0 else pyInt (locDist locations i j / s))
      else 0 := by
  unfold mentry time_matrix
  by_cases hi : i < locations.length
  · rw [getD_map_range _ _ _ _ hi]
    by_cases hj : j < locations.length
    · rw [getD_map_range _ _ _ _ hj]
      simp [hi, hj]
    · rw [getD_map_range_oob _ _ _ _ hj]
      simp [hj]
  · rw [getD_map_range_oob _ _ _ _ hi]
    simp [hi]

theorem mentry_distance_matrix (locations : List Location) (i j : ℕ) :
    mentry (distance_matrix locations) i j =
      if i < locations.length ∧ j < locations.length then
        (if i = j then 0 else pyInt (locDist locations i j))
      else 0 := by
  unfold mentry distance_matrix
  by_cases hi : i < locations.length
  · rw [getD_map_range _ _ _ _ hi]
    by_cases hj : j < locations.length
    · rw [getD_map_range _ _ _ _ hj]
      simp [hi, hj]
    · rw [getD_map_range_oob _ _ _ _ hj]
      simp [hj]
  · rw [getD_map_range_oob _ _ _ _ hi]
    simp [hi]

theorem gdm_time (addresses : List Stop) (depot : Option Depot) (w : ℝ) :
    (_get_distance_matrix addresses depot w).time_matrix =
      time_matrix (matrixLocations addresses depot) (w * 1000 / 3600) := rfl

theorem gdm_dist (addresses : List Stop) (depot : Option Depot) (w : ℝ) :
    (_get_distance_matrix addresses depot w).distance_matrix =
      distance_matrix (matrixLocations addresses depot) := rfl

theorem locDist_symm (locations : List Location) (i j : ℕ) :
    locDist locations i j = locDist locations j i :=
  haversine_symm _ _ _ _

theorem locDist_nonneg (locations : List Location) (i j : ℕ) :
    0 ≤ locDist locations i j :=
  haversine_nonneg _ _ _ _

theorem pyInt_nonneg {x : ℝ} (h : 0 ≤ x) : 0 ≤ pyInt x := by
  rw [pyInt_of_nonneg h]
  exact Int.floor_nonneg.mpr h

theorem time_matrix_symm (locations : List Location) (s : ℝ) (i j : ℕ) :
    mentry (time_matrix locations s) i j = mentry (time_matrix locations s) j i := by
  rw [mentry_time_matrix, mentry_time_matrix, locDist_symm]
  rcases eq_or_ne i j with h | h
  · subst h
    rfl
  · by_cases hi : i < locations.length <;> by_cases hj : j < locations.length <;>
      simp [hi, hj, h, h.symm]

theorem distance_matrix_symm (locations : List Location) (i j : ℕ) :
    mentry (distance_matrix locations) i j = mentry (distance_matrix locations) j i := by
  rw [mentry_distance_matrix, mentry_distance_matrix, locDist_symm]
  rcases eq_or_ne i j with h | h
  · subst h
    rfl
  · by_cases hi : i < locations.length <;> by_cases hj : j < locations.length <;>
      simp [hi, hj, h, h.symm]

theorem time_matrix_diag (locations : List Location) (s : ℝ) (i : ℕ) :
    mentry (time_matrix locations s) i i = 0 := by
  rw [mentry_time_matrix]
  by_cases hi : i < locations.length <;> simp [hi]

theorem distance_matrix_diag (locations : List Location) (i : ℕ) :
    mentry (distance_matrix locations) i i = 0 := by
  rw [mentry_distance_matrix]
  by_cases hi : i < locations.length <;> simp [hi]

theorem time_matrix_nonneg (locations : List Location) {s : ℝ} (hs : 0 < s) (i j : ℕ) :
    0 ≤ mentry (time_matrix locations s) i j := by
  rw [mentry_time_matrix]
  split_ifs with h1 h2
  · exact le_refl 0
  · exact pyInt_nonneg (div_nonneg (locDist_nonneg locations i j) hs.le)
  · exact le_refl 0

theorem distance_matrix_nonneg (locations : List Location) (i j : ℕ) :
    0 ≤ mentry (distance_matrix locations) i j := by
  rw [mentry_distance_matrix]
  split_ifs with h1 h2
  · exact le_refl 0
  · exact pyInt_nonneg (locDist_nonneg locations i j)
  · exact le_refl 0

/-- Concrete stops used as witnesses. -/
def stopA : Stop := ⟨"1", 0, 0, "1", "A"⟩

def stopB : Stop := ⟨"2", 0, 1, "2", "A"⟩

def stopC : Stop := ⟨"3", 1, 1, "3", "B"⟩

def twoStops : List Stop := [stopA, stopB]

def threeStops : List Stop := [stopA, stopB, stopC]

/-- C1 counterexample: with two stops and no depot the location list has
length 2, not stop count + 1 = 3 — no synthetic depot node is inserted. -/
theorem C1_counterexample :
    ¬ (matrixLocations twoStops none).length = twoStops.length + 1 := by
  simp [matrixLocations, twoStops]

/-- C1 (amended): when the request provides a depot, the location list has the
depot at index 0 and length stop count + 1, and the matrices are
(N+1)×(N+1); when the request provides no depot, no synthetic node is
inserted — the location list is exactly the stops' coordinates (length N) and
the matrices are N×N, with the first stop serving as node 0. -/
theorem C1_location_list_shape (addresses : List Stop) (d : Depot) (w : ℝ) :
    (matrixLocations addresses (some d)).length = addresses.length + 1 ∧
    (matrixLocations addresses (some d)).getD 0 default = ⟨d.lat, d.lon⟩ ∧
    (_get_distance_matrix addresses (some d) w).time_matrix.length = addresses.length + 1 ∧
    (_get_distance_matrix addresses (some d) w).distance_matrix.length = addresses.length + 1 ∧
    (∀ row ∈ (_get_distance_matrix addresses (some d) w).time_matrix,
      row.length = addresses.length + 1) ∧
    (∀ row ∈ (_get_distance_matrix addresses (some d) w).distance_matrix,
      row.length = addresses.length + 1) ∧
    matrixLocations addresses none = addresses.map (fun a => (⟨a.lat, a.lon⟩ : Location)) ∧
    (_get_distance_matrix addresses none w).time_matrix.length = addresses.length ∧
    (_get_distance_matrix addresses none w).distance_matrix.length = addresses.length := by
  have hlen : (matrixLocations addresses (some d)).length = addresses.length + 1 := by
    simp [matrixLocations, Nat.add_comm]
  have hlen0 : (matrixLocations addresses none).length = addresses.length := by
    simp [matrixLocations]
  refine ⟨hlen, by simp [matrixLocations], ?_, ?_, ?_, ?_, by simp [matrixLocations], ?_, ?_⟩
  · rw [gdm_time]
    simp [time_matrix, hlen]
  · rw [gdm_dist]
    simp [distance_matrix, hlen]
  · intro row hrow
    rw [gdm_time] at hrow
    unfold time_matrix at hrow
    obtain ⟨i, hi, rfl⟩ := List.mem_map.mp hrow
    simp [hlen]
  · intro row hrow
    rw [gdm_dist] at hrow
    unfold distance_matrix at hrow
    obtain ⟨i, hi, rfl⟩ := List.mem_map.mp hrow
    simp [hlen]
  · rw [gdm_time]
    simp [time_matrix, hlen0]
  · rw [gdm_dist]
    simp [distance_matrix, hlen0]

/-- C2: the built time and distance matrices are symmetric, have zero
diagonal, and have only non-negative integer entries (for a positive walking
speed, as the request contract requires). -/
theorem C2_matrix_symmetric_zero_diag_nonneg (addresses : List Stop)
    (depot : Option Depot) (walking_speed : ℝ)
    (h2 : 2 ≤ addresses.length) (hw : 0 < walking_speed) :
    (∀ i j, mentry (_get_distance_matrix addresses depot walking_speed).time_matrix i j =
        mentry (_get_distance_matrix addresses depot walking_speed).time_matrix j i ∧
      mentry (_get_distance_matrix addresses depot walking_speed).distance_matrix i j =
        mentry (_get_distance_matrix addresses depot walking_speed).distance_matrix j i) ∧
    (∀ i, mentry (_get_distance_matrix addresses depot walking_speed).time_matrix i i = 0 ∧
      mentry (_get_distance_matrix addresses depot walking_speed).distance_matrix i i = 0) ∧
    (∀ i j, 0 ≤ mentry (_get_distance_matrix addresses depot walking_speed).time_matrix i j ∧
      0 ≤ mentry (_get_distance_matrix addresses depot walking_speed).distance_matrix i j) := by
  have hs : (0 : ℝ) < walking_speed * 1000 / 3600 := by linarith
  refine ⟨fun i j => ⟨?_, ?_⟩, fun i => ⟨?_, ?_⟩, fun i j => ⟨?_, ?_⟩⟩
  · rw [gdm_time]
    exact time_matrix_symm _ _ i j
  · rw [gdm_dist]
    exact distance_matrix_symm _ i j
  · rw [gdm_time]
    exact time_matrix_diag _ _ i
  · rw [gdm_dist]
    exact distance_matrix_diag _ i
  · rw [gdm_time]
    exact time_matrix_nonneg _ hs i j
  · rw [gdm_dist]
    exact distance_matrix_nonneg _ i j

/-- Witness for C2 at a concrete request: two stops, no depot, speed 5 km/h. -/
theorem C2_witness :
    (2 ≤ twoStops.length ∧ (0 : ℝ) < 5) ∧
    ((∀ i j, mentry (_get_distance_matrix twoStops none 5).time_matrix i j =
        mentry (_get_distance_matrix twoStops none 5).time_matrix j i ∧
      mentry (_get_distance_matrix twoStops none 5).distance_matrix i j =
        mentry (_get_distance_matrix twoStops none 5).distance_matrix j i) ∧
    (∀ i, mentry (_get_distance_matrix twoStops none 5).time_matrix i i = 0 ∧
      mentry (_get_distance_matrix twoStops none 5).distance_matrix i i = 0) ∧
    (∀ i j, 0 ≤ mentry (_get_distance_matrix twoStops none 5).time_matrix i j ∧
      0 ≤ mentry (_get_distance_matrix twoStops none 5).distance_matrix i j)) :=
  ⟨⟨by decide, by norm_num⟩,
    C2_matrix_symmetric_zero_diag_nonneg twoStops none 5 (by decide) (by norm_num)⟩

/-- C3: off the diagonal, the time entry is the floor of
haversine-distance / walking-speed-in-m-per-s and the distance entry is the
floor of the haversine distance — truncation toward zero of non-negative
values, never rounding to nearest. -/
theorem C3_entries_are_floors (addresses : List Stop) (depot : Option Depot)
    (walking_speed : ℝ) (i j : ℕ)
    (hi : i < (matrixLocations addresses depot).length)
    (hj : j < (matrixLocations addresses depot).length)
    (hij : i ≠ j) (hw : 0 < walking_speed) :
    mentry (_get_distance_matrix addresses depot walking_speed).time_matrix i j =
      ⌊locDist (matrixLocations addresses depot) i j / (walking_speed * 1000 / 3600)⌋ ∧
    mentry (_get_distance_matrix addresses depot walking_speed).distance_matrix i j =
      ⌊locDist (matrixLocations addresses depot) i j⌋ := by
  have hs : (0 : ℝ) < walking_speed * 1000 / 3600 := by linarith
  constructor
  · rw [gdm_time, mentry_time_matrix, if_pos ⟨hi, hj⟩, if_neg hij,
      pyInt_of_nonneg (div_nonneg (locDist_nonneg _ i j) hs.le)]
  · rw [gdm_dist, mentry_distance_matrix, if_pos ⟨hi, hj⟩, if_neg hij,
      pyInt_of_nonneg (locDist_nonneg _ i j)]

/-- Witness for C3 at a concrete request: indices 0 and 1 of two stops. -/
theorem C3_witness :
    (0 < (matrixLocations twoStops none).length ∧
      1 < (matrixLocations twoStops none).length ∧ (0 : ℕ) ≠ 1 ∧ (0 : ℝ) < 5) ∧
    (mentry (_get_distance_matrix twoStops none 5).time_matrix 0 1 =
      ⌊locDist (matrixLocations twoStops none) 0 1 / (5 * 1000 / 3600)⌋ ∧
    mentry (_get_distance_matrix twoStops none 5).distance_matrix 0 1 =
      ⌊locDist (matrixLocations twoStops none) 0 1⌋) :=
  ⟨⟨by simp [matrixLocations, twoStops], by simp [matrixLocations, twoStops],
      by decide, by norm_num⟩,
    C3_entries_are_floors twoStops none 5 0 1 (by simp [matrixLocations, twoStops])
      (by simp [matrixLocations, twoStops]) (by decide) (by norm_num)⟩

/-! ### CVRP formulation: capacity dimension (`_solve_cvrp`, app.py lines 265-353)

The actual search is performed by OR-Tools, an external library. What the
source contributes is the *formulation*: `demand_callback` returns 0 at the
depot (node 0) and 1 everywhere else (lines 302-305), and
`AddDimensionWithVehicleCapacity` with zero slack, capacity `max_houses` per
vehicle and start cumul fixed to 0 (lines 309-315) constrains every cumulative
load along a route to stay within the capacity. A route is the node sequence
one vehicle visits, beginning at its start node (the depot, node 0) and ending
just before the end sentinel. -/

/-- Model of `demand_callback`: depot has 0 demand, all others have 1. -/
def demand_callback (from_node : ℕ) : ℕ := if from_node = 0 then 0 else 1

/-- Cumulative load of (a prefix of) a route: the sum of its demands. -/
def routeDemand (route : List ℕ) : ℕ := (route.map demand_callback).sum

/-- The capacity-dimension constraint of `_solve_cvrp`: the cumulative load —
which starts at 0 (empty prefix) and accumulates `demand_callback` with zero
slack — never exceeds the vehicle capacity at any point of the route. -/
def CapacityFeasible (cap : ℕ) (route : List ℕ) : Prop :=
  ∀ i : ℕ, routeDemand (route.take i) ≤ cap

theorem routeDemand_take_le (route : List ℕ) (i : ℕ) :
    routeDemand (route.take i) ≤ routeDemand route := by
  induction route generalizing i with
  | nil => simp [routeDemand]
  | cons x rest ih =>
    cases i with
    | zero => simp [routeDemand]
    | succ n =>
      simp only [List.take_succ_cons, routeDemand, List.map_cons, List.sum_cons]
      exact Nat.add_le_add_left (ih n) _

theorem capacityFeasible_of_demand_le {cap : ℕ} {route : List ℕ}
    (h : routeDemand route ≤ cap) : CapacityFeasible cap route :=
  fun i => le_trans (routeDemand_take_le route i) h

/-! ### Solution extractor (`_format_solution`, app.py lines 356-410) -/

/-- An address record annotated by the extractor with its 0-based sequence
number and cumulative metrics (`addr.copy()` plus the three added keys). -/
structure AnnStop where
  stop : Stop
  sequence : ℕ
  walk_time_sec : ℤ
  distance_m : ℤ
deriving Inhabited

/-- One output cluster per agent. -/
structure Cluster where
  agent_id : ℕ
  addresses : List AnnStop
  n_addresses : ℕ
  total_time_sec : ℤ
  total_distance_m : ℤ
  estimated_walk_time_min : ℤ
deriving Inhabited

/-- Python `round()` on an exact rational: round half to even. -/
def pyRound (q : ℚ) : ℤ :=
  let f := ⌊q⌋
  let r := q - f
  if r < 1 / 2 then f
  else if 1 / 2 < r then f + 1
  else if f % 2 = 0 then f else f + 1

/-- The `while not routing.IsEnd(index)` loop of `_format_solution`
(lines 378-399): visit each node of the route in solver order; emit non-depot
nodes (skipping node 0, and indexing the pre-sorted address list at
`node - 1`); accumulate the matrix entry of each traversed edge, except the
final edge into the end sentinel. -/
def walkRoute (addresses : List Stop) (tm dm : List (List ℤ)) :
    List ℕ → ℕ → ℤ → ℤ → List AnnStop × ℤ × ℤ
  | [], _, cumT, cumD => ([], cumT, cumD)
  | node :: rest, seq, cumT, cumD =>
    let emitHere : List AnnStop :=
      if node ≠ 0 ∧ node - 1 < addresses.length then
        [⟨addresses.getD (node - 1) default, seq, cumT, cumD⟩]
      else []
    let cumT' := match rest with
      | [] => cumT
      | next :: _ => cumT + mentry tm node next
    let cumD' := match rest with
      | [] => cumD
      | next :: _ => cumD + mentry dm node next
    let r := walkRoute addresses tm dm rest (seq + emitHere.length) cumT' cumD'
    (emitHere ++ r.1, r.2)

/-- The cluster built for one agent (lines 401-408). -/
def formatCluster (agent_id : ℕ) (route : List ℕ) (addresses : List Stop)
    (tm dm : List (List ℤ)) : Cluster :=
  let w := walkRoute addresses tm dm route 0 0 0
  ⟨agent_id, w.1, w.1.length, w.2.1, w.2.2, pyRound ((w.2.1 : ℚ) / 60)⟩

/-- Model of `_format_solution`: one cluster per `agent_id in range(n_agents)`,
where `routes agent_id` is the node sequence OR-Tools chose for that agent. -/
def _format_solution (routes : ℕ → List ℕ) (addresses : List Stop)
    (tm dm : List (List ℤ)) (n_agents : ℕ) : List Cluster :=
  (List.range n_agents).map
    (fun agent_id => formatCluster agent_id (routes agent_id) addresses tm dm)

/-- The edge-by-edge sum of matrix entries along a node sequence — the
spec-side description of the extractor's cumulative totals. -/
def pathSum (m : List (List ℤ)) : List ℕ → ℤ
  | [] => 0
  | [_] => 0
  | a :: b :: rest => mentry m a b + pathSum m (b :: rest)

theorem walkRoute_cumul (addresses : List Stop) (tm dm : List (List ℤ)) :
    ∀ (route : List ℕ) (seq : ℕ) (t d : ℤ),
      (walkRoute addresses tm dm route seq t d).2 =
        (t + pathSum tm route, d + pathSum dm route)
  | [], seq, t, d => by simp [walkRoute, pathSum]
  | [x], seq, t, d => by simp [walkRoute, pathSum]
  | x :: y :: rest, seq, t, d => by
    have ih := walkRoute_cumul addresses tm dm (y :: rest)
    rw [walkRoute]
    dsimp only
    rw [ih]
    simp only [pathSum, Prod.mk.injEq]
    constructor <;> ring

theorem walkRoute_emit_le_demand (addresses : List Stop) (tm dm : List (List ℤ)) :
    ∀ (route : List ℕ) (seq : ℕ) (t d : ℤ),
      (walkRoute addresses tm dm route seq t d).1.length ≤ routeDemand route := by
  intro route
  induction route with
  | nil => intro seq t d; simp [walkRoute, routeDemand]
  | cons node rest ih =>
    intro seq t d
    simp only [walkRoute, List.length_append, routeDemand, List.map_cons, List.sum_cons]
    have h1 : (if node ≠ 0 ∧ node - 1 < addresses.length then
        [(⟨addresses.getD (node - 1) default, seq, t, d⟩ : AnnStop)] else []).length ≤
        demand_callback node := by
      unfold demand_callback
      split_ifs with h hz hz
      · exact absurd hz h.1
      · exact le_refl 1
      · simp
      · simp
    calc _ ≤ demand_callback node + (walkRoute addresses tm dm rest _ _ _).1.length :=
          Nat.add_le_add_right h1 _
      _ ≤ demand_callback node + routeDemand rest := Nat.add_le_add_left (ih _ _ _) _

theorem walkRoute_map_stop (addresses : List Stop) (tm dm : List (List ℤ)) :
    ∀ (route : List ℕ), (∀ n ∈ route, n < addresses.length) →
      ∀ (seq : ℕ) (t d : ℤ),
        (walkRoute addresses tm dm route seq t d).1.map (fun s => s.stop) =
          (route.filter (fun n => decide (¬ n = 0))).map
            (fun n => addresses.getD (n - 1) default) := by
  intro route
  induction route with
  | nil => intro hroute seq t d; simp [walkRoute]
  | cons node rest ih =>
    intro hroute seq t d
    have hnode : node < addresses.length := hroute node (List.mem_cons_self node rest)
    have hrest : ∀ n ∈ rest, n < addresses.length :=
      fun n hn => hroute n (List.mem_cons_of_mem node hn)
    rw [walkRoute.eq_def]
    dsimp only
    by_cases hz : node = 0
    · subst hz
      rw [if_neg (fun h => h.1 rfl)]
      simpa using ih hrest _ _ _
    · have hlt : node - 1 < addresses.length := lt_of_le_of_lt (Nat.sub_le node 1) hnode
      rw [if_pos ⟨hz, hlt⟩]
      simp only [List.filter_cons, decide_eq_true_eq, hz, not_false_iff, decide_True,
        List.map_cons, List.map_append, List.singleton_append]
      rw [ih hrest _ _ _]
      simp [hz]

/-- C8: in every solution satisfying the capacity dimension `_solve_cvrp`
installs — depot demand 0, stop demand 1, cumulative load starting at 0 and
never exceeding the per-vehicle capacity — each agent's formatted cluster
serves at most `max_houses` stops. -/
theorem C8_capacity_invariant (n_agents max_houses : ℕ) (routes : ℕ → List ℕ)
    (addresses : List Stop) (tm dm : List (List ℤ))
    (hfeas : ∀ aid, aid < n_agents → CapacityFeasible max_houses (routes aid)) :
    ∀ c ∈ _format_solution routes addresses tm dm n_agents,
      c.n_addresses ≤ max_houses := by
  intro c hc
  obtain ⟨aid, hmem, rfl⟩ := List.mem_map.mp hc
  have haid : aid < n_agents := List.mem_range.mp hmem
  have h1 : (formatCluster aid (routes aid) addresses tm dm).n_addresses =
      (walkRoute addresses tm dm (routes aid) 0 0 0).1.length := rfl
  rw [h1]
  calc (walkRoute addresses tm dm (routes aid) 0 0 0).1.length
      ≤ routeDemand (routes aid) := walkRoute_emit_le_demand addresses tm dm _ 0 0 0
    _ ≤ max_houses := by
        have := hfeas aid haid (routes aid).length
        rwa [List.take_length] at this

/-- Witness for C8: one agent, capacity 2, route depot-1-2 over two stops. -/
theorem C8_witness :
    (∀ aid, aid < 1 → CapacityFeasible 2 ((fun _ => [0, 1, 2]) aid)) ∧
    (∀ c ∈ _format_solution (fun _ => [0, 1, 2]) twoStops [[0]] [[0]] 1,
      c.n_addresses ≤ 2) := by
  have hfeas : ∀ aid, aid < 1 → CapacityFeasible 2 ((fun _ => [0, 1, 2]) aid) := by
    intro aid _
    have hd : routeDemand [0, 1, 2] ≤ 2 := by decide
    exact capacityFeasible_of_demand_le hd
  exact ⟨hfeas, C8_capacity_invariant 1 2 (fun _ => [0, 1, 2]) twoStops [[0]] [[0]] hfeas⟩

/-- C9: the extractor emits exactly one cluster per agent (an agent with an
empty route still appears, with no addresses and zero totals), and each
cluster's `total_time_sec` / `total_distance_m` equal the edge-by-edge sums of
the same time/distance matrices along that agent's route. -/
theorem C9_extractor_totals (n_agents : ℕ) (routes : ℕ → List ℕ)
    (addresses : List Stop) (tm dm : List (List ℤ)) :
    (_format_solution routes addresses tm dm n_agents).length = n_agents ∧
    (∀ aid, aid < n_agents →
      ((_format_solution routes addresses tm dm n_agents).getD aid default).agent_id = aid ∧
      ((_format_solution routes addresses tm dm n_agents).getD aid default).total_time_sec =
        pathSum tm (routes aid) ∧
      ((_format_solution routes addresses tm dm n_agents).getD aid default).total_distance_m =
        pathSum dm (routes aid) ∧
      (routes aid = [0] →
        ((_format_solution routes addresses tm dm n_agents).getD aid default).addresses = [] ∧
        ((_format_solution routes addresses tm dm n_agents).getD aid default).total_time_sec = 0 ∧
        ((_format_solution routes addresses tm dm n_agents).getD aid default).total_distance_m =
          0)) := by
  constructor
  · simp [_format_solution]
  · intro aid haid
    have hget : (_format_solution routes addresses tm dm n_agents).getD aid default =
        formatCluster aid (routes aid) addresses tm dm :=
      getD_map_range _ n_agents aid default haid
    have hcum := walkRoute_cumul addresses tm dm (routes aid) 0 0 0
    have htime : (formatCluster aid (routes aid) addresses tm dm).total_time_sec =
        pathSum tm (routes aid) := by
      show (walkRoute addresses tm dm (routes aid) 0 0 0).2.1 = pathSum tm (routes aid)
      rw [hcum]
      ring
    have hdist : (formatCluster aid (routes aid) addresses tm dm).total_distance_m =
        pathSum dm (routes aid) := by
      show (walkRoute addresses tm dm (routes aid) 0 0 0).2.2 = pathSum dm (routes aid)
      rw [hcum]
      ring
    refine ⟨by rw [hget]; rfl, by rw [hget, htime], by rw [hget, hdist], ?_⟩
    intro hempty
    refine ⟨?_, ?_, ?_⟩
    · rw [hget]
      show (walkRoute addresses tm dm (routes aid) 0 0 0).1 = []
      rw [hempty]
      rfl
    · rw [hget, htime, hempty]
      rfl
    · rw [hget, hdist, hempty]
      rfl

/-- Witness for C9: two agents, one serving stops 1 and 2, one idle. -/
theorem C9_witness :
    ((0 : ℕ) < 2) ∧
    (((_format_solution (fun aid => if aid = 0 then [0, 1, 2] else [0]) twoStops
        [[0, 3], [3, 0]] [[0, 7], [7, 0]] 2).getD 0 default).agent_id = 0 ∧
      ((_format_solution (fun aid => if aid = 0 then [0, 1, 2] else [0]) twoStops
        [[0, 3], [3, 0]] [[0, 7], [7, 0]] 2).getD 0 default).total_time_sec =
        pathSum [[0, 3], [3, 0]] ((fun aid => if aid = 0 then [0, 1, 2] else [0]) 0) ∧
      ((_format_solution (fun aid => if aid = 0 then [0, 1, 2] else [0]) twoStops
        [[0, 3], [3, 0]] [[0, 7], [7, 0]] 2).getD 0 default).total_distance_m =
        pathSum [[0, 7], [7, 0]] ((fun aid => if aid = 0 then [0, 1, 2] else [0]) 0) ∧
      (((fun aid => if aid = 0 then [0, 1, 2] else [0]) 0 = [0]) →
        ((_format_solution (fun aid => if aid = 0 then [0, 1, 2] else [0]) twoStops
          [[0, 3], [3, 0]] [[0, 7], [7, 0]] 2).getD 0 default).addresses = [] ∧
        ((_format_solution (fun aid => if aid = 0 then [0, 1, 2] else [0]) twoStops
          [[0, 3], [3, 0]] [[0, 7], [7, 0]] 2).getD 0 default).total_time_sec = 0 ∧
        ((_format_solution (fun aid => if aid = 0 then [0, 1, 2] else [0]) twoStops
          [[0, 3], [3, 0]] [[0, 7], [7, 0]] 2).getD 0 default).total_distance_m = 0)) :=
  ⟨by decide,
    (C9_extractor_totals 2 (fun aid => if aid = 0 then [0, 1, 2] else [0]) twoStops
      [[0, 3], [3, 0]] [[0, 7], [7, 0]]).2 0 (by decide)⟩

theorem getD_map_of_lt {α β : Type} [Inhabited α] [Inhabited β] (f : α → β)
    (l : List α) (i : ℕ) (h : i < l.length) :
    (l.map f).getD i default = f (l.getD i default) := by
  rw [List.getD_eq_getElem?_getD, List.getD_eq_getElem?_getD, List.getElem?_map,
    List.getElem?_eq_getElem h]
  rfl

/-- C10: when the request provides no depot, the matrices are built over the
addresses alone (N×N for N stops, location k being the coordinates of address
k), and the extractor — which skips node 0 and emits `addresses[node - 1]` —
never emits a visit to the first pre-sorted address (node 0) and attaches to
each emitted visit of node n the fields of the address one position before the
location whose coordinates produced the traversal costs. -/
theorem C10_no_depot_off_by_one (addresses : List Stop) (w : ℝ) (route : List ℕ)
    (tm dm : List (List ℤ))
    (hroute : ∀ n ∈ route, n < addresses.length) (hw : 0 < w) :
    matrixLocations addresses none = addresses.map (fun a => (⟨a.lat, a.lon⟩ : Location)) ∧
    (_get_distance_matrix addresses none w).time_matrix.length = addresses.length ∧
    (∀ i j, i < addresses.length → j < addresses.length → ¬ i = j →
      mentry (_get_distance_matrix addresses none w).time_matrix i j =
        ⌊_haversine_m (addresses.getD i default).lat (addresses.getD i default).lon
            (addresses.getD j default).lat (addresses.getD j default).lon /
          (w * 1000 / 3600)⌋) ∧
    ((walkRoute addresses tm dm route 0 0 0).1.map (fun s => s.stop) =
      (route.filter (fun n => decide (¬ n = 0))).map
        (fun n => addresses.getD (n - 1) default)) := by
  have hlocs : matrixLocations addresses none =
      addresses.map (fun a => (⟨a.lat, a.lon⟩ : Location)) := by
    simp [matrixLocations]
  have hlen : (matrixLocations addresses none).length = addresses.length := by
    rw [hlocs]
    simp
  refine ⟨hlocs, ?_, ?_, walkRoute_map_stop addresses tm dm route hroute 0 0 0⟩
  · rw [gdm_time]
    simp [time_matrix, hlen]
  · intro i j hi hj hij
    have hi' : i < (matrixLocations addresses none).length := by rwa [hlen]
    have hj' : j < (matrixLocations addresses none).length := by rwa [hlen]
    have hs : (0 : ℝ) < w * 1000 / 3600 := by linarith
    rw [gdm_time, mentry_time_matrix, if_pos ⟨hi', hj'⟩, if_neg hij,
      pyInt_of_nonneg (div_nonneg (locDist_nonneg _ i j) hs.le)]
    unfold locDist
    rw [hlocs, getD_map_of_lt _ _ _ hi, getD_map_of_lt _ _ _ hj]

/-- Witness for C10: three stops, no depot, route depot-node-then-1-and-2. -/
theorem C10_witness :
    ((∀ n ∈ [0, 1, 2], n < threeStops.length) ∧ (0 : ℝ) < 5) ∧
    (matrixLocations threeStops none =
        threeStops.map (fun a => (⟨a.lat, a.lon⟩ : Location)) ∧
      (_get_distance_matrix threeStops none 5).time_matrix.length = threeStops.length ∧
      (∀ i j, i < threeStops.length → j < threeStops.length → ¬ i = j →
        mentry (_get_distance_matrix threeStops none 5).time_matrix i j =
          ⌊_haversine_m (threeStops.getD i default).lat (threeStops.getD i default).lon
              (threeStops.getD j default).lat (threeStops.getD j default).lon /
            (5 * 1000 / 3600)⌋) ∧
      ((walkRoute threeStops [[0]] [[0]] [0, 1, 2] 0 0 0).1.map (fun s => s.stop) =
        (([0, 1, 2] : List ℕ).filter (fun n => decide (¬ n = 0))).map
          (fun n => threeStops.getD (n - 1) default))) :=
  ⟨⟨by decide, by norm_num⟩,
    C10_no_depot_off_by_one threeStops 5 [0, 1, 2] [[0]] [[0]] (by decide) (by norm_num)⟩

/-! ### Lambda handler (`handler`, app.py lines 27-172)

The auth gate (lines 73-88) is an upstream concern the spec scopes out; we
model the authorized path. The wall-clock `matrix_time_sec` and the derived
`summary` aggregates are omitted from the response model. OR-Tools
(`_solve_cvrp`) and the matrix construction are taken as parameters so that
theorems can quantify over them; the real matrix builder is
`_get_distance_matrix` above. `int(len(addresses) / n_agents)` is float
division truncated toward zero, i.e. `Int.tdiv` on exact values, and raises
`ZeroDivisionError` (caught by the top-level `except`, surfacing as a
generic 500) when `n_agents == 0`. -/

/-- The recognized `options` keys; `none` models an absent or `null` key. -/
structure Options where
  max_houses_per_agent : Option ℤ
  walking_speed : Option ℝ
  street_side_bias : Option Bool
  return_to_depot : Option Bool

/-- The decoded request body. -/
structure RequestBody where
  addresses : List Stop
  n_agents : ℤ
  depot : Option Depot
  options : Options

/-- A response body: an error message or the clusters of a success. -/
inductive HBody where
  | err (msg : String)
  | success (clusters : List Cluster)

/-- A Lambda HTTP response (`_response`): status code plus body. -/
structure HResp where
  statusCode : ℕ
  body : HBody

/-- Lines 108-110: the per-agent cap, defaulting to
`int(len(addresses) / n_agents) + 1`; division by an agent count of zero
raises, which the top-level handler turns into a generic failure. -/
def maxHousesOf (n_addresses : ℕ) (n_agents : ℤ) (opt : Option ℤ) : Except String ℤ :=
  match opt with
  | some m => Except.ok m
  | none =>
    if n_agents = 0 then Except.error "division by zero"
    else Except.ok (Int.tdiv (n_addresses : ℤ) n_agents + 1)

/-- The `handler` pipeline after the auth gate: validate, default the cap,
pre-sort, build matrices, solve, format. -/
def handler (getMatrix : List Stop → Option Depot → ℝ → Option MatrixData)
    (solve : List (List ℤ) → List (List ℤ) → ℤ → ℤ → Bool → Option (ℕ → List ℕ))
    (hasApiKey : Bool) (body : RequestBody) : HResp :=
  if body.addresses.length < 2 then ⟨400, HBody.err "Need at least 2 addresses"⟩
  else if !hasApiKey then ⟨500, HBody.err "VALHALLA_API_KEY not configured"⟩
  else
    match maxHousesOf body.addresses.length body.n_agents
        body.options.max_houses_per_agent with
    | Except.error e => ⟨500, HBody.err e⟩
    | Except.ok max_houses =>
      let walking_speed := body.options.walking_speed.getD 5
      let street_side_bias := body.options.street_side_bias.getD true
      let return_to_depot := body.options.return_to_depot.getD true
      let addresses :=
        if street_side_bias then _sort_by_street_side body.addresses else body.addresses
      match getMatrix addresses body.depot walking_speed with
      | none => ⟨500, HBody.err "Failed to compute distance matrix"⟩
      | some md =>
        match solve md.time_matrix md.distance_matrix body.n_agents max_houses
            return_to_depot with
        | none => ⟨500, HBody.err "CVRP solver failed to find solution"⟩
        | some routes =>
          ⟨200, HBody.success (_format_solution routes addresses md.time_matrix
            md.distance_matrix body.n_agents.toNat)⟩

/-- C6: when `options.max_houses_per_agent` is absent or null, the cap
defaults to `floor(len(addresses) / n_agents) + 1` (for a positive agent
count, where Python's truncating `int()` coincides with the floor). -/
theorem C6_default_capacity (n_addresses k : ℕ) (hk : 0 < k) :
    maxHousesOf n_addresses (k : ℤ) none =
      Except.ok (⌊(n_addresses : ℚ) / (k : ℚ)⌋ + 1) := by
  unfold maxHousesOf
  have hk0 : ¬ ((k : ℤ) = 0) := by
    simpa using hk.ne'
  rw [if_neg hk0]
  have htdiv : Int.tdiv (n_addresses : ℤ) (k : ℤ) = (n_addresses : ℤ) / (k : ℤ) :=
    Int.tdiv_eq_ediv (Int.natCast_nonneg _) (Int.natCast_nonneg _)
  have hfloor : ⌊(n_addresses : ℚ) / (k : ℚ)⌋ = (n_addresses : ℤ) / (k : ℤ) := by
    have := Rat.floor_intCast_div_natCast (n_addresses : ℤ) k
    push_cast at this
    exact this
  rw [htdiv, hfloor]

/-- Witness for C6: five addresses, two agents: cap = floor(5/2) + 1 = 3. -/
theorem C6_witness :
    0 < 2 ∧ maxHousesOf 5 (2 : ℤ) none = Except.ok (⌊(5 : ℚ) / (2 : ℚ)⌋ + 1) :=
  ⟨by decide, by
    have h := C6_default_capacity 5 2 (by decide)
    simpa using h⟩

/-- Request bodies and pipeline stubs used as concrete counterexamples. -/
def plainOptions : Options := ⟨none, none, some false, none⟩

def oneStopBody : RequestBody := ⟨[stopA], 1, none, plainOptions⟩

def zeroAgentsBody : RequestBody := ⟨twoStops, 0, none, plainOptions⟩

def negAgentsBody : RequestBody := ⟨twoStops, -1, none, plainOptions⟩

def noMatrix : List Stop → Option Depot → ℝ → Option MatrixData := fun _ _ _ => none

def someMatrix : List Stop → Option Depot → ℝ → Option MatrixData :=
  fun _ _ _ => some ⟨[], [], 0⟩

def noSolve : List (List ℤ) → List (List ℤ) → ℤ → ℤ → Bool → Option (ℕ → List ℕ) :=
  fun _ _ _ _ _ => none

/-- C7 counterexample: a request with 2 addresses and agent count 0 is *not*
rejected with an input error — it crashes into the generic 500 handler — and
with agent count −1 the matrix builder *is* invoked (the response depends on
it). The handler never validates non-positive agent counts. -/
theorem C7_counterexample :
    2 ≤ zeroAgentsBody.addresses.length ∧ zeroAgentsBody.n_agents ≤ 0 ∧
    (handler noMatrix noSolve true zeroAgentsBody).statusCode = 500 ∧
    ¬ (handler noMatrix noSolve true zeroAgentsBody).statusCode = 400 ∧
    negAgentsBody.n_agents ≤ 0 ∧
    ¬ handler noMatrix noSolve true negAgentsBody =
        handler someMatrix noSolve true negAgentsBody := by
  refine ⟨by decide, by decide, rfl, by decide, by decide, ?_⟩
  have e1 : handler noMatrix noSolve true negAgentsBody =
      ⟨500, HBody.err "Failed to compute distance matrix"⟩ := rfl
  have e2 : handler someMatrix noSolve true negAgentsBody =
      ⟨500, HBody.err "CVRP solver failed to find solution"⟩ := rfl
  rw [e1, e2]
  intro h
  injection h with h1 h2
  injection h2 with h3
  exact absurd h3 (by decide)

/-- C7 (amended): a request with fewer than 2 addresses is rejected
immediately with a 400 input error, whatever the matrix builder and solver do
(neither is invoked); but non-positive agent counts are not validated — with
agent count 0 and a defaulted cap the handler raises a division error that
surfaces as a generic 500 failure. -/
theorem C7_too_few_addresses_rejected :
    (∀ getMatrix solve hasApiKey body, body.addresses.length < 2 →
      handler getMatrix solve hasApiKey body =
        ⟨400, HBody.err "Need at least 2 addresses"⟩) ∧
    (∀ getMatrix solve body, 2 ≤ body.addresses.length → body.n_agents = 0 →
      body.options.max_houses_per_agent = none →
      handler getMatrix solve true body = ⟨500, HBody.err "division by zero"⟩) := by
  constructor
  · intro getMatrix solve hasApiKey body hlt
    unfold handler
    rw [if_pos hlt]
  · intro getMatrix solve body h2 hz hnone
    unfold handler
    rw [if_neg (Nat.not_lt.mpr h2)]
    have hmax : maxHousesOf body.addresses.length body.n_agents
        body.options.max_houses_per_agent = Except.error "division by zero" := by
      rw [hnone, hz]
      unfold maxHousesOf
      rw [if_pos rfl]
    rw [hmax]
    rfl

/-- Witness for C7's amended statement at concrete requests. -/
theorem C7_witness :
    (oneStopBody.addresses.length < 2 ∧
      handler noMatrix noSolve true oneStopBody =
        ⟨400, HBody.err "Need at least 2 addresses"⟩) ∧
    (2 ≤ zeroAgentsBody.addresses.length ∧ zeroAgentsBody.n_agents = 0 ∧
      zeroAgentsBody.options.max_houses_per_agent = none ∧
      handler noMatrix noSolve true zeroAgentsBody =
        ⟨500, HBody.err "division by zero"⟩) :=
  ⟨⟨by decide,
      C7_too_few_addresses_rejected.1 noMatrix noSolve true oneStopBody (by decide)⟩,
    ⟨by decide, by decide, rfl,
      C7_too_few_addresses_rejected.2 noMatrix noSolve zeroAgentsBody (by decide) (by decide)
        rfl⟩⟩
